import Mathlib

/-!
Verification of the `adlfs` adapter (`src/adlfs/core.py`) against its
natural-language specification.

The file shallowly embeds the two classes of `core.py`:

* `AzureDatalakeFileSystem` — path trimming (`trim_filename`), `ukey`, `size`,
  and the pickling hooks `getstate` / `setstate` with `do_connect`.
* `AzureBlobFileSystem` — `blobInit` (`__init__`), `connect`, `make_headers`,
  `make_base_url` and `ls`.

External collaborators (the `requests` transport, the `azure.datalake.store`
SDK, the identity authority) are passed in as explicit oracle parameters:
a call to an oracle in the model corresponds to one real network / SDK call
in the code, and the requests issued are returned in a trace list so that
theorems can count them.  `fsspec.utils.infer_storage_options` is not part of
this repository; its path component is modelled from the specification (see
`infer_storage_options_path`).
-/

namespace Adlfs

/-- JSON scalar values as consumed from the token-endpoint responses and the
metadata dictionaries (`response['access_token']`, `info(path)['length']`, …). -/
inductive JVal where
  | s (v : String)
  | n (v : Int)
deriving DecidableEq, Repr

/-- Python-level error outcomes relevant to the embedded code paths.
`nameError` is an unresolved global name, `keyError` a failed dict lookup.
`notFoundError` / `remoteError` / `authenticationError` are the typed errors
named by the specification's error taxonomy; they are distinct constructors,
so each is distinguishable from the others. -/
inductive PyErr where
  | nameError (n : String)
  | keyError (k : String)
  | notFoundError
  | remoteError (status : Int) (body : String)
  | authenticationError (status : Int) (body : String)
deriving DecidableEq, Repr

/-- Association-list lookup, modelling Python dict indexing `d[k]`
(dicts built from JSON have unique keys, so first match suffices). -/
def lookupKV {α : Type} (k : String) : List (String × α) → Option α
  | [] => none
  | (k', v) :: rest => if k' = k then some v else lookupKV k rest

/-- Removal of one key, modelling Python `del d[k]` on a dict copy. -/
def eraseKey {α : Type} (k : String) : List (String × α) → List (String × α)
  | [] => []
  | (k', v) :: rest => if k' = k then rest else (k', v) :: eraseKey k rest

/-- Modelled from the spec: the URI schemes the PathResolver recognizes
(spec section 6: `adl://…` and `abfs[s]://…`). `fsspec.utils.infer_storage_options`
is an external collaborator whose source is not in this repository. -/
def recognizedSchemes : List String := ["adl://", "abfs://", "abfss://"]

/-- Whether `fn` begins with the scheme string `sch`, computed on the
character lists of the two strings. -/
def strStarts (fn sch : String) : Bool := sch.data.isPrefixOf fn.data

/-- Modelled from the spec: the `path` component of
`fsspec.utils.infer_storage_options` (spec section 4.1): if the string starts
with a recognized storage scheme, the host is extracted as the container
identifier and the remainder is the relative path; a string without a
recognized scheme is treated whole as the relative path. -/
def infer_storage_options_path (fn : String) : String :=
  match recognizedSchemes.find? (fun sch => strStarts fn sch) with
  | some sch =>
      match (fn.drop sch.length).splitOn "/" with
      | [] => ""
      | _host :: rest => "/" ++ String.intercalate "/" rest
  | none => fn

/-- `AzureDatalakeFileSystem._trim_filename` (core.py 67-71): returns the
`path` field of `infer_storage_options(fn)`. -/
def trim_filename (fn : String) : String := infer_storage_options_path fn

/-- Names bound at the top level of the module `core.py`: the `__future__`
imports (line 2), the imports of lines 4-11, the module logger (line 13) and
the two class statements (lines 16 and 106). -/
def moduleNames : List String :=
  ["print_function", "division", "absolute_import", "logging", "requests",
   "datetime", "lib", "AzureDLFileSystem", "AbstractFileSystem",
   "infer_storage_options", "logger", "AzureDatalakeFileSystem",
   "AzureBlobFileSystem"]

/-- Python builtin names (available without import) that name resolution
falls back to after the module globals; `tokenize` is not among them. -/
def builtinNames : List String :=
  ["print", "super", "len", "open", "str", "int", "float", "bool", "dict",
   "list", "tuple", "set", "object", "type", "isinstance", "getattr",
   "setattr", "delattr", "repr", "format", "range", "enumerate", "zip"]

/-- Python name resolution at module scope: globals, then builtins. -/
def resolvable (n : String) : Bool :=
  moduleNames.contains n || builtinNames.contains n

/-- `AzureDatalakeFileSystem.ukey` (core.py 84-86):
`return tokenize(self.info(adl_path)['modificationTime'])`.
`info` is the external SDK's metadata call, passed as an oracle; `hash` stands
for whatever callable the name `tokenize` would denote if it resolved.
Python evaluates the callee name before its argument, so resolution of
`tokenize` is checked before `info` is consulted. -/
def ukey (hash : JVal → String)
    (info : String → Except PyErr (List (String × JVal)))
    (path : String) : Except PyErr String :=
  let adl_path := trim_filename path
  if resolvable "tokenize" then
    match info adl_path with
    | .error e => .error e
    | .ok d =>
        match lookupKV "modificationTime" d with
        | some m => .ok (hash m)
        | none => .error (.keyError "modificationTime")
  else .error (.nameError "tokenize")

/-- `AzureDatalakeFileSystem.size` (core.py 88-90):
`return self.info(adl_path)['length']`, with `info` the external SDK metadata
call passed as an oracle. -/
def size (info : String → Except PyErr (List (String × JVal)))
    (path : String) : Except PyErr JVal :=
  match info (trim_filename path) with
  | .error e => .error e
  | .ok d =>
      match lookupKV "length" d with
      | some v => .ok v
      | none => .error (.keyError "length")

/-- Instance state of `AzureDatalakeFileSystem` after `do_connect`:
the four credential fields set in `__init__` (50-56) plus the `token` and
`azure` attributes set by the SDK base-class init (evidenced by the `del`
statements in `__getstate__`, lines 94-95). `token` and `azure` are opaque
handles, modelled as strings. -/
structure DatalakeState where
  tenant_id : String
  client_id : String
  client_secret : String
  store_name : String
  token : String
  azure : String
deriving DecidableEq, Repr

/-- The instance `__dict__` as an ordered association list. -/
def datalakeDict (s : DatalakeState) : List (String × String) :=
  [("tenant_id", s.tenant_id), ("client_id", s.client_id),
   ("client_secret", s.client_secret), ("store_name", s.store_name),
   ("token", s.token), ("azure", s.azure)]

/-- `__getstate__` (core.py 92-97): copy `__dict__`, `del dic['token']`,
`del dic['azure']`, return the dict. -/
def getstate (s : DatalakeState) : List (String × String) :=
  eraseKey "azure" (eraseKey "token" (datalakeDict s))

/-- One credential exchange against the identity authority
(`lib.auth(tenant_id, client_id, client_secret)`, core.py 60-63). -/
structure AuthCall where
  tenant_id : String
  client_id : String
  client_secret : String
deriving DecidableEq, Repr

/-- `do_connect` (core.py 58-65): calls `lib.auth` with the three credentials
(one credential-exchange call, recorded in the trace), then the SDK base-class
init stores the fresh token and a live session derived from it. `auth` and
`session` are oracles for the external identity authority and SDK. -/
def do_connect (auth : AuthCall → String) (session : String → String → String)
    (s : DatalakeState) : DatalakeState × List AuthCall :=
  let call : AuthCall := ⟨s.tenant_id, s.client_id, s.client_secret⟩
  let tok := auth call
  ({ s with token := tok, azure := session tok s.store_name }, [call])

/-- `__setstate__` (core.py 99-103): `self.__dict__.update(state)` then
`self.do_connect()`. The unpickled object has no `token`/`azure` attributes
until `do_connect` sets them, so they start as placeholders that `do_connect`
overwrites before `setstate` returns; `setstate` issues no storage call, only
the credential refresh inside `do_connect`. Returns `none` if the snapshot is
missing a credential field. -/
def setstate (auth : AuthCall → String) (session : String → String → String)
    (st : List (String × String)) : Option (DatalakeState × List AuthCall) :=
  match lookupKV "tenant_id" st, lookupKV "client_id" st,
        lookupKV "client_secret" st, lookupKV "store_name" st with
  | some t, some c, some k, some n =>
      some (do_connect auth session
        { tenant_id := t, client_id := c, client_secret := k, store_name := n,
          token := "", azure := "" })
  | _, _, _, _ => none

/-- Instance state of `AzureBlobFileSystem` (core.py 118-128). `token` and
`token_type` hold whatever JSON values were stored (`None` before any is). -/
structure BlobState where
  tenant_id : String
  client_id : String
  client_secret : String
  storage_account : String
  token : Option JVal
  token_type : Option JVal
  dns_suffix : String
deriving DecidableEq, Repr

/-- One POST to the identity authority as issued by `connect`. -/
structure PostReq where
  url : String
  headers : List (String × String)
  data : List (String × String)
deriving DecidableEq, Repr

/-- The POST request `connect` builds (core.py 133-138): token endpoint URL,
form-encoded content type, client-credentials grant body. -/
def connectReq (s : BlobState) : PostReq :=
  { url := "https://login.microsoftonline.com/" ++ s.tenant_id ++
           "/oauth2/v2.0/token"
  , headers := [("Content-Type", "application/x-www-form-urlencoded")]
  , data := [("client_id", s.client_id), ("client_secret", s.client_secret),
             ("scope", "https://storage.azure.com/.default"),
             ("grant_type", "client_credentials")] }

/-- The field reads `connect` performs on the parsed JSON body
(core.py 140-143), in source order: `token_type`, `expires_in`,
`ext_expires_in` (both bound to locals and discarded), `access_token`.
A missing key is a Python `KeyError`; no status check precedes the reads. -/
def connectUpdate (resp : List (String × JVal)) (s : BlobState) :
    Except PyErr BlobState :=
  match lookupKV "token_type" resp with
  | none => .error (.keyError "token_type")
  | some tt =>
    match lookupKV "expires_in" resp with
    | none => .error (.keyError "expires_in")
    | some _ =>
      match lookupKV "ext_expires_in" resp with
      | none => .error (.keyError "ext_expires_in")
      | some _ =>
        match lookupKV "access_token" resp with
        | none => .error (.keyError "access_token")
        | some ak => .ok { s with token_type := some tt, token := some ak }

/-- `connect` (core.py 130-143): unconditionally issues exactly one POST
(recorded in the trace) and then reads the response body; no check of any
held token precedes the POST. `oracle` returns the parsed JSON body. -/
def connect (oracle : PostReq → List (String × JVal)) (s : BlobState) :
    Except PyErr BlobState × List PostReq :=
  let req := connectReq s
  (connectUpdate (oracle req) s, [req])

/-- Two token requests in immediate succession (`connect(); connect()`);
a Python exception in the first propagates, so the second only runs after
a successful first. The trace concatenates the POSTs issued. -/
def twoConnects (oracle : PostReq → List (String × JVal)) (s : BlobState) :
    Except PyErr BlobState × List PostReq :=
  match connect oracle s with
  | (.error e, c1) => (.error e, c1)
  | (.ok s1, c1) =>
      match connect oracle s1 with
      | (r2, c2) => (r2, c1 ++ c2)

/-- The token held by the adapter after an operation (none on error). -/
def stateToken : Except PyErr BlobState → Option JVal
  | .ok s => s.token
  | .error _ => none

/-- Whether an outcome is the specification's `AuthenticationError`. -/
def isAuthError : Except PyErr BlobState → Bool
  | .error (.authenticationError _ _) => true
  | _ => false

/-- `AzureBlobFileSystem.__init__` (core.py 118-128): stores the credentials
and the supplied `token` argument, sets `token_type = None`, then
unconditionally calls `self.connect()`, and only afterwards sets
`dns_suffix`. -/
def blobInit (oracle : PostReq → List (String × JVal))
    (tenant client secret account : String) (token : Option JVal) :
    Except PyErr BlobState × List PostReq :=
  let s0 : BlobState :=
    { tenant_id := tenant, client_id := client, client_secret := secret,
      storage_account := account, token := token, token_type := none,
      dns_suffix := "" }
  match connect oracle s0 with
  | (.error e, c) => (.error e, c)
  | (.ok s1, c) => (.ok { s1 with dns_suffix := ".dfs.core.windows.net" }, c)

/-- Query-parameter values as passed to `requests.get(params=...)`:
the `resource` string and the `recursive` boolean. -/
inductive ParamV where
  | str (v : String)
  | b (v : Bool)
deriving DecidableEq, Repr

/-- One GET against the storage endpoint as issued by `ls`. -/
structure GetReq where
  method : String
  url : String
  headers : List (String × String)
  params : List (String × ParamV)
deriving DecidableEq, Repr

/-- Python f-string rendering of `self.token` in `f'Bearer {self.token}'`
(`None` renders as the string `None`). -/
def pyShow : Option JVal → String
  | none => "None"
  | some (.s v) => v
  | some (.n v) => toString v

/-- `_make_headers` (core.py 145-150). -/
def make_headers (s : BlobState) : List (String × String) :=
  [("Content-Type", "application/x-www-form-urlencoded"),
   ("x-ms-version", "2019-02-02"),
   ("Authorization", "Bearer " ++ pyShow s.token)]

/-- `_make_base_url` (core.py 152-153). -/
def make_base_url (s : BlobState) (filesystem : String) : String :=
  "https://" ++ s.storage_account ++ s.dns_suffix ++ "/" ++ filesystem

/-- The transport's view of a completed GET: the final URL (with encoded
query string) and the body, both only ever printed by `ls`. -/
structure HttpResp where
  finalUrl : String
  body : String
deriving DecidableEq, Repr

/-- Modelled from the spec: the `FileEntry` record of the data model
(spec section 3): {path, length, modificationTime, isDirectory}. The source
never constructs one; the type only gives `ls`'s result slot its
specification-mandated element type. -/
structure FileEntry where
  path : String
  length : Int
  modificationTime : String
  isDirectory : Bool
deriving DecidableEq, Repr

/-- Everything `ls` does, observable: the single GET it issues, the three
values it prints (`url`, `response.url`, `response.json()`), and the value it
returns to its caller. -/
structure LsResult where
  req : GetReq
  printed : List String
  ret : Option (List FileEntry)
deriving Repr

/-- `ls` (core.py 155-168): builds the base URL and headers, the payload
`{'resource': resource, 'recursive': recursive}`, issues one GET, prints the
URL, the response URL and the parsed body, and falls off the end of the
function, returning `None`. -/
def ls (oracle : GetReq → HttpResp) (s : BlobState)
    (filesystem resource : String) (recursive : Bool) : LsResult :=
  let url := make_base_url s filesystem
  let headers := make_headers s
  let payload : List (String × ParamV) :=
    [("resource", .str resource), ("recursive", .b recursive)]
  let req : GetReq :=
    { method := "GET", url := url, headers := headers, params := payload }
  let resp := oracle req
  { req := req, printed := [url, resp.finalUrl, resp.body], ret := none }

/-! Concrete fixtures used by witnesses and counterexamples. -/

/-- A successful token-endpoint response body. -/
def goodResp : List (String × JVal) :=
  [("token_type", .s "Bearer"), ("expires_in", .n 3600),
   ("ext_expires_in", .n 3600), ("access_token", .s "T1")]

/-- An identity authority that always answers `goodResp`. -/
def goodOracle : PostReq → List (String × JVal) := fun _ => goodResp

/-- A non-2xx token-endpoint response body: the standard OAuth error shape,
which carries no `token_type` field. -/
def errResp : List (String × JVal) :=
  [("error", .s "invalid_client"),
   ("error_description", .s "AADSTS7000215: invalid client secret")]

/-- A blob adapter holding a (still-valid) token `T0`. -/
def sampleBlob : BlobState :=
  { tenant_id := "tenant", client_id := "client", client_secret := "secret",
    storage_account := "acct", token := some (.s "T0"),
    token_type := some (.s "Bearer"), dns_suffix := ".dfs.core.windows.net" }

/-- `sampleBlob` after one successful `connect` against `goodOracle`. -/
def sampleBlobConnected : BlobState :=
  { sampleBlob with token := some (.s "T1"), token_type := some (.s "Bearer") }

/-- A metadata oracle for an absent object: the SDK answers the remote 404
with its not-found error. -/
def info404 : String → Except PyErr (List (String × JVal)) :=
  fun _ => .error .notFoundError

/-- A metadata oracle for a present object of length 42. -/
def infoOk : String → Except PyErr (List (String × JVal)) :=
  fun _ => .ok [("length", .n 42),
                ("modificationTime", .s "2023-01-01T00:00:00Z")]

/-! Theorems settling the claims. -/

/-- Claim C1: the claim states that `ls` returns a sequence of FileEntry
records parsed from the response body and does not return nothing or only
print the response. The code does the opposite: for every oracle, adapter
state, filesystem, resource and recursive flag, `ls` returns `None` and its
only output is the three printed lines. -/
theorem ls_prints_and_returns_none (oracle : GetReq → HttpResp) (s : BlobState)
    (filesystem resource : String) (recursive : Bool) :
    (ls oracle s filesystem resource recursive).ret = none ∧
    (ls oracle s filesystem resource recursive).printed.length = 3 :=
  ⟨rfl, rfl⟩

/-- Claim C2, counterexample: an adapter holding the still-valid token `T0`
that requests a token twice in immediate succession issues two
credential-exchange POSTs — not at most one — and the held token `T0` is not
reused: the state afterwards holds the freshly fetched `T1`. -/
theorem connect_twice_two_refreshes_counterexample :
    (twoConnects goodOracle sampleBlob).2.length = 2 ∧
    ¬ (twoConnects goodOracle sampleBlob).2.length ≤ 1 ∧
    stateToken (twoConnects goodOracle sampleBlob).1 ≠ some (JVal.s "T0") := by
  refine ⟨rfl, by decide, by decide⟩

/-- Claim C2 as amended: the adapter performs no token caching. Every call of
`connect` issues exactly one credential-exchange POST regardless of any held
token, so two successive token requests (the first succeeding) issue exactly
two POSTs. -/
theorem connect_no_caching (oracle : PostReq → List (String × JVal))
    (s : BlobState) :
    (connect oracle s).2.length = 1 ∧
    (∀ s1, (connect oracle s).1 = .ok s1 →
      (twoConnects oracle s).2.length = 2) := by
  refine ⟨rfl, ?_⟩
  intro s1 h
  have h' : connectUpdate (oracle (connectReq s)) s = Except.ok s1 := h
  simp only [twoConnects, connect, h']
  rfl

/-- Witness for `connect_no_caching` at the concrete adapter `sampleBlob`
against the concrete authority `goodOracle`. -/
theorem connect_no_caching_witness :
    (connect goodOracle sampleBlob).2.length = 1 ∧
    (twoConnects goodOracle sampleBlob).2.length = 2 :=
  ⟨(connect_no_caching goodOracle sampleBlob).1,
   (connect_no_caching goodOracle sampleBlob).2 sampleBlobConnected rfl⟩

/-- Claim C3: construction of `AzureBlobFileSystem` with the pre-fetched
token `T0` supplied does not skip the credential exchange: it issues one
refresh POST and the resulting session token is the freshly fetched `T1`,
the supplied `T0` having been overwritten. -/
theorem blobInit_ignores_supplied_token :
    (blobInit goodOracle "tenant" "client" "secret" "acct"
        (some (JVal.s "T0"))).2.length = 1 ∧
    stateToken (blobInit goodOracle "tenant" "client" "secret" "acct"
        (some (JVal.s "T0"))).1 = some (JVal.s "T1") := by
  refine ⟨rfl, rfl⟩

/-- Claim C4: for every datalake adapter state, the serialized snapshot
(`getstate`) contains no `token` and no `azure` entry while retaining all
four credential fields with their original values; and reconstructing from
that snapshot (`setstate`) succeeds and performs exactly one fresh
credential-exchange call, whose result — not any serialized token — becomes
the new session state. `setstate` issues no storage call, so the refresh
precedes any remote call of the reconstructed adapter. -/
theorem serialization_excludes_session_and_reconnects (s : DatalakeState)
    (auth : AuthCall → String) (session : String → String → String) :
    lookupKV "token" (getstate s) = none ∧
    lookupKV "azure" (getstate s) = none ∧
    lookupKV "tenant_id" (getstate s) = some s.tenant_id ∧
    lookupKV "client_id" (getstate s) = some s.client_id ∧
    lookupKV "client_secret" (getstate s) = some s.client_secret ∧
    lookupKV "store_name" (getstate s) = some s.store_name ∧
    setstate auth session (getstate s) =
      some ({ tenant_id := s.tenant_id, client_id := s.client_id,
              client_secret := s.client_secret, store_name := s.store_name,
              token := auth ⟨s.tenant_id, s.client_id, s.client_secret⟩,
              azure := session
                (auth ⟨s.tenant_id, s.client_id, s.client_secret⟩)
                s.store_name },
            [⟨s.tenant_id, s.client_id, s.client_secret⟩]) :=
  ⟨rfl, rfl, rfl, rfl, rfl, rfl, rfl⟩

/-- Claim C5, counterexample: on the concrete non-2xx token response
`errResp` (an OAuth error body, no `token_type` field), `connect`'s body
processing fails with the missing-field lookup failure
`KeyError 'token_type'`, which is not an `AuthenticationError` — the claim
states the opposite. -/
theorem connect_keyerror_counterexample :
    connectUpdate errResp sampleBlob = .error (.keyError "token_type") ∧
    isAuthError (connectUpdate errResp sampleBlob) = false :=
  ⟨rfl, rfl⟩

/-- Claim C5 as amended: on any token response whose body lacks the
`token_type` field (as every standard OAuth error response does), `connect`
fails with the missing-field lookup failure `KeyError 'token_type'` — not
with an `AuthenticationError` carrying the upstream status/body; no status
check or error translation exists in the code. -/
theorem connect_error_is_keyerror (resp : List (String × JVal)) (s : BlobState)
    (h : lookupKV "token_type" resp = none) :
    connectUpdate resp s = .error (.keyError "token_type") ∧
    isAuthError (connectUpdate resp s) = false := by
  unfold connectUpdate
  rw [h]
  exact ⟨rfl, rfl⟩

/-- Witness for `connect_error_is_keyerror` at the concrete error response
`errResp`. -/
theorem connect_error_is_keyerror_witness :
    connectUpdate errResp sampleBlob = .error (.keyError "token_type") ∧
    isAuthError (connectUpdate errResp sampleBlob) = false :=
  connect_error_is_keyerror errResp sampleBlob rfl

/-- Claim C6: at the concrete path `adl://store/data/file.txt` with a
metadata oracle reporting a modification timestamp, `ukey` fails with
`NameError 'tokenize'` and produces no key at all — so it is not the claimed
deterministic function of the modification timestamp. -/
theorem ukey_nameerror_at_input :
    ukey (fun _ => "deadbeef") infoOk "adl://store/data/file.txt" =
      .error (.nameError "tokenize") := rfl

/-- Claim C7: for every candidate hash callable, metadata oracle and path,
`ukey` fails with `NameError 'tokenize'` before producing any key: the name
`tokenize` resolves neither among the module's top-level names nor among the
builtins, and Python evaluates the callee name before calling `info`. -/
theorem ukey_always_nameerror (hash : JVal → String)
    (info : String → Except PyErr (List (String × JVal))) (path : String) :
    ukey hash info path = .error (.nameError "tokenize") := by
  have h : resolvable "tokenize" = false := by decide
  simp only [ukey, h, Bool.false_eq_true, if_false]

/-- Claim C9: `size` propagates the metadata call. If the SDK answers the
remote 404 with its not-found error, `size` fails with `NotFoundError`; if
the object is present and its metadata carries a `length` field, `size`
returns that length; and `NotFoundError` is distinguishable from every
`RemoteError` (distinct constructors). -/
theorem size_notfound_and_length
    (info : String → Except PyErr (List (String × JVal))) (path : String) :
    (info (trim_filename path) = .error .notFoundError →
      size info path = .error .notFoundError) ∧
    (∀ d v, info (trim_filename path) = .ok d → lookupKV "length" d = some v →
      size info path = .ok v) ∧
    (∀ st b, (PyErr.notFoundError : PyErr) ≠ .remoteError st b) := by
  refine ⟨?_, ?_, ?_⟩
  · intro h
    simp only [size, h]
  · intro d v h1 h2
    simp only [size, h1, h2]
  · intro st b hne
    cases hne

/-- Witness for `size_notfound_and_length`: a mocked 404 yields
`NotFoundError`, and a present object of length 42 yields 42. -/
theorem size_notfound_and_length_witness :
    size info404 "missing/path" = .error .notFoundError ∧
    size infoOk "present/file.txt" = .ok (.n 42) :=
  ⟨(size_notfound_and_length info404 "missing/path").1 rfl,
   (size_notfound_and_length infoOk "present/file.txt").2.1
     [("length", JVal.n 42), ("modificationTime", JVal.s "2023-01-01T00:00:00Z")]
     (JVal.n 42) rfl rfl⟩

/-- Claim C8: for every adapter state, container name and recursive flag, the
listing call (with the default `resource='filesystem'`) is one GET to
`https://` + storage account + dns suffix + `/` + container, with query
parameters `resource=filesystem` and `recursive=<bool>`, and with exactly the
headers `Content-Type: application/x-www-form-urlencoded`,
`x-ms-version: 2019-02-02` (the fixed API version) and
`Authorization: Bearer <token>`. -/
theorem ls_request_format (oracle : GetReq → HttpResp) (s : BlobState)
    (filesystem : String) (recursive : Bool) :
    (ls oracle s filesystem "filesystem" recursive).req =
      { method := "GET"
      , url := "https://" ++ s.storage_account ++ s.dns_suffix ++ "/" ++
               filesystem
      , headers := [("Content-Type", "application/x-www-form-urlencoded"),
                    ("x-ms-version", "2019-02-02"),
                    ("Authorization", "Bearer " ++ pyShow s.token)]
      , params := [("resource", .str "filesystem"),
                   ("recursive", .b recursive)] } := rfl

/-- Claim C10: a path carrying no recognized scheme prefix is already in
normalized form, and normalization returns it unchanged, so normalization is
idempotent on its image of scheme-free paths. -/
theorem trim_filename_idempotent_on_normalized (p : String)
    (h : ∀ sch ∈ recognizedSchemes, strStarts p sch = false) :
    trim_filename p = p := by
  unfold trim_filename infer_storage_options_path
  have hf : recognizedSchemes.find? (fun sch => strStarts p sch) = none := by
    rw [List.find?_eq_none]
    intro x hx
    simp [h x hx]
  rw [hf]

/-- Witness for `trim_filename_idempotent_on_normalized` at the concrete
scheme-free path `folder/file.txt`. -/
theorem trim_filename_idempotent_witness :
    trim_filename "folder/file.txt" = "folder/file.txt" :=
  trim_filename_idempotent_on_normalized "folder/file.txt" (by decide)

end Adlfs
